import Mathlib

/-!
Verification of the google_pem key-cache pipeline. This file gives a
shallow embedding of the escaped-pair parser (src/parse.rs), the
fixed-capacity key table (src/keys.rs), the freshness extractor
(src/fetch.rs) and the caching wrapper (src/cache.rs), and settles the
specification claims against it.

Bytes are modelled as natural numbers (the code only ever compares them
with ASCII constants), buffers as lists of bytes, and the two external
collaborators - the identifier hasher (std DefaultHasher) and the PEM
key parser (jsonwebtoken DecodingKey::from_rsa_pem) - as function
parameters, with the opaque parsed key material as a type parameter K.
Instants (std SystemTime / Instant) are modelled as naturals on a
seconds scale.
-/

namespace GooglePem

/-! Escaped-pair parser, src/parse.rs. -/

/-- Model of s.copy_within(i + 2.., i + 1) in unescape (src/parse.rs
line 80): shifts the tail after the rewritten escape one cell to the
left; the final cell keeps its old value. Only used with i + 1 < s.length. -/
def shiftTail (s : List Nat) (i : Nat) : List Nat :=
  s.take (i + 1) ++ s.drop (i + 2) ++ s.drop (s.length - 1)

/-- Loop of unescape (src/parse.rs lines 76-83): scan indices 0..len
left to right; at each backslash (92) followed by n (110) write a
newline (10), shift the tail left, and count the substitution in n.
The first argument len is the fixed original length; the second is the
remaining iteration count len - i, making the recursion structural. -/
def unescapeGo (len : Nat) : Nat → List Nat → Nat → Nat → List Nat × Nat
  | 0, s, _, n => (s, n)
  | r + 1, s, i, n =>
    if s.getD i 0 = 92 ∧ i + 1 < len ∧ s.getD (i + 1) 0 = 110 then
      unescapeGo len r (shiftTail (s.set i 10) i) (i + 1) (n + 1)
    else
      unescapeGo len r s (i + 1) n

/-- unescape (src/parse.rs lines 75-86): rewrite backslash-n escape
sequences to literal newline bytes in place and return the compacted
prefix, shortened by the number of substitutions. -/
def unescape (s : List Nat) : List Nat :=
  let p := unescapeGo s.length s.length s 0 0
  p.1.take (s.length - p.2)

/-- Parser state (src/parse.rs lines 3-7): the raw pointer, modelled as
an offset from the buffer base, and the remaining length. -/
structure Parse where
  ptr : Nat
  len : Nat
deriving DecidableEq

/-- Result of one Parse::next call: the yielded (identifier, key) pair
if any, the memory after the in-place unescape, the new parser state,
and the absolute offsets of every byte the scan read. Memory is the
byte list starting at the buffer base, so an offset is outside the
original buffer exactly when it is at least the buffer length; a read
beyond the modelled memory returns 0. -/
structure NextRes where
  res : Option (List Nat × List Nat)
  mem : List Nat
  st : Parse
  reads : List Nat
deriving DecidableEq

/-- Overwrite memory at offset off with the bytes xs (same length). -/
def writeSlice (mem : List Nat) (off : Nat) (xs : List Nat) : List Nat :=
  mem.take off ++ xs ++ mem.drop (off + xs.length)

/-- Scan loop of Parse::next (src/parse.rs lines 24-47). The fourth
argument is the remaining iteration count len - i; idx collects the
quote (34) indices found so far. On the fourth quote the identifier
slice (between quotes 1 and 2) and key slice (between quotes 3 and 4)
are cut out, the key is unescaped in place, and ptr is advanced just
past the fourth quote; len is left unchanged, exactly as in the source. -/
def nextGo (mem : List Nat) (ptr len : Nat) :
    Nat → Nat → List Nat → List Nat → NextRes
  | 0, _, _, reads => ⟨none, mem, ⟨ptr, 0⟩, reads⟩
  | r + 1, i, idx, reads =>
    let reads2 := reads ++ [ptr + i]
    if mem.getD (ptr + i) 0 = 34 then
      let idx2 := idx ++ [i]
      if idx2.length = 4 then
        let i0 := idx2.getD 0 0
        let i1 := idx2.getD 1 0
        let i2 := idx2.getD 2 0
        let i3 := idx2.getD 3 0
        let id := (mem.drop (ptr + i0 + 1)).take (i1 - i0 - 1)
        let keySlice := (mem.drop (ptr + i2 + 1)).take (i3 - i2 - 1)
        let un := unescapeGo keySlice.length keySlice.length keySlice 0 0
        let key := un.1.take (keySlice.length - un.2)
        ⟨some (id, key), writeSlice mem (ptr + i2 + 1) un.1, ⟨ptr + i + 1, len⟩, reads2⟩
      else nextGo mem ptr len r (i + 1) idx2 reads2
    else nextGo mem ptr len r (i + 1) idx reads2

/-- Parse::next (src/parse.rs lines 24-47). -/
def Parse.next (mem : List Nat) (st : Parse) : NextRes :=
  nextGo mem st.ptr st.len st.len 0 [] []

/-- Drive the iterator (bounded by fuel), collecting the yielded pairs
in order and every offset read along the way; stops at the first None,
as a for loop over the iterator would. -/
def runParse : Nat → List Nat → Parse → List (List Nat × List Nat) × List Nat
  | 0, _, _ => ([], [])
  | fuel + 1, mem, st =>
    let r := Parse.next mem st
    match r.res with
    | none => ([], r.reads)
    | some p =>
      let rest := runParse fuel r.mem r.st
      (p :: rest.1, r.reads ++ rest.2)

/-! Key table, src/keys.rs. -/

/-- KEYS_CAPACITY (src/keys.rs line 9). -/
def KEYS_CAPACITY : Nat := 2 + 2

/-- The key table (src/keys.rs lines 14-18): fixed-capacity arrays of
id hashes and parsed keys plus a length. Only the first len slots are
ever read (iter takes len, src/keys.rs lines 89-94), so the table is
modelled as the list of its initialized (id hash, key) entries. -/
structure Keys (K : Type) where
  entries : List (Nat × K)
deriving DecidableEq

variable {K : Type}

/-- Keys::len (src/keys.rs line 33). -/
def Keys.len (k : Keys K) : Nat := k.entries.length

/-- Keys::is_empty (src/keys.rs line 35). -/
def Keys.isEmpty (k : Keys K) : Bool := k.len == 0

/-- Keys::clear (src/keys.rs line 37): only the count is reset. -/
def Keys.clear (_ : Keys K) : Keys K := ⟨[]⟩

/-- Keys::push together with push_unchecked (src/keys.rs lines 43-62):
reject with Ok false when the table is full; otherwise hash the id
(hashId models the std DefaultHasher, src/keys.rs lines 142-146) and
parse the key bytes (parseKey models DecodingKey::from_rsa_pem); a
parse failure surfaces as an error with the table unchanged. The
mutated table is threaded explicitly. -/
def Keys.push (hashId : List Nat → Nat) (parseKey : List Nat → Option K)
    (k : Keys K) (id key : List Nat) : Keys K × Except Unit Bool :=
  if KEYS_CAPACITY ≤ k.len then (k, .ok false)
  else
    match parseKey key with
    | none => (k, .error ())
    | some pk => (⟨k.entries ++ [(hashId id, pk)]⟩, .ok true)

/-- Keys::extend_try (src/keys.rs lines 67-72): push the pairs in
order; return Ok false the moment one does not fit (the rest is left
unconsumed) and propagate the first parse failure, keeping the entries
already pushed. -/
def Keys.extendTry (hashId : List Nat → Nat) (parseKey : List Nat → Option K)
    (k : Keys K) : List (List Nat × List Nat) → Keys K × Except Unit Bool
  | [] => (k, .ok true)
  | (id, key) :: rest =>
    match Keys.push hashId parseKey k id key with
    | (k2, .error e) => (k2, .error e)
    | (k2, .ok false) => (k2, .ok false)
    | (k2, .ok true) => Keys.extendTry hashId parseKey k2 rest

/-- Keys::get via Keys::iter (src/keys.rs lines 89-102): hash the id
and linearly scan the initialized entries for the first entry whose
stored hash equals it; the identifier bytes themselves are neither
stored nor compared. -/
def Keys.get (hashId : List Nat → Nat) (k : Keys K) (id : List Nat) : Option K :=
  ((k.entries.find? fun e => e.1 == hashId id).map Prod.snd)

/-! Freshness extractor, src/fetch.rs. -/

/-- Age (src/fetch.rs lines 86-90), at T = u64 as used in the source. -/
structure Age where
  age : Nat
  max_age : Nat
deriving DecidableEq

/-- Checked u64 subtraction. The source computes max_age - age on u64
directly (src/fetch.rs line 94), which panics in debug builds and
wraps modulo 2^64 in release builds when the subtrahend is larger;
the checked model returns none there. No branch clamps the result. -/
def u64sub (a b : Nat) : Option Nat := if b ≤ a then some (a - b) else none

/-- Age::expiration (src/fetch.rs lines 93-96) over the Nat instant
model: add max_age - age seconds to the given time. -/
def Age.expiration (a : Age) (time : Nat) : Option Nat :=
  (u64sub a.max_age a.age).map (time + ·)

/-- Failure kinds of fetch::into (src/fetch.rs lines 43-51). -/
inductive ErrorFetch where
  | Connect
  | ConnectTcp
  | RequestWrite
deriving DecidableEq

/-- Read loop of fetch::into (src/fetch.rs lines 34-38): every
successful read returns min(remaining buffer capacity, bytes the
stream still holds), and a read of 0 - full buffer or exhausted
stream - breaks the loop. The first argument is the buffer length N,
the second a fuel bounding the iteration count; stream.length + 1
always suffices because every non-final iteration consumes at least
one byte. -/
def intoLoop (N : Nat) : Nat → List Nat → Nat → Nat
  | 0, _, bytesRead => bytesRead
  | fuel + 1, stream, bytesRead =>
    let n := min (N - bytesRead) stream.length
    if n = 0 then bytesRead
    else intoLoop N fuel (stream.drop n) (bytesRead + n)

/-- fetch::into (src/fetch.rs lines 29-40) on the happy connection
path (connection, TLS and request-write failures occur before the
loop and abort with an ErrorFetch): read the response stream into a
buffer of N bytes and return Ok with the byte count - also when the
buffer filled up before the response ended. -/
def fetchInto (response : List Nat) (N : Nat) : Except ErrorFetch Nat :=
  .ok (intoLoop N (response.length + 1) response 0)

/-- The internal buffer length 5 << 10 of Keys::extend_fetch
(src/keys.rs line 84). -/
def extendFetchBufLen : Nat := 5 <<< 10

/-- Byte-list prefix test, modelling the slice comparison inside
memmem::find. -/
def leadsWith : List Nat → List Nat → Bool
  | [], _ => true
  | _ :: _, [] => false
  | a :: na, b :: hb => a == b && leadsWith na hb

/-- Scan of memmem::find: first offset where the needle occurs. -/
def memmemGo (needle : List Nat) : List Nat → Nat → Option Nat
  | [], i => if needle.isEmpty then some i else none
  | h :: t, i => if leadsWith needle (h :: t) then some i else memmemGo needle t (i + 1)

/-- memmem::find as used in src/fetch.rs. -/
def memmem (hay needle : List Nat) : Option Nat := memmemGo needle hay 0

/-- atoi::atoi on a run of ASCII digit bytes: none on empty input or
u64 overflow, otherwise the decimal value. -/
def atoi (s : List Nat) : Option Nat :=
  if s.isEmpty then none
  else
    let v := s.foldl (fun acc c => acc * 10 + (c - 48)) 0
    if v < 2 ^ 64 then some v else none

/-- find_prefixed_number (src/fetch.rs lines 107-112): locate the
marker, take the ASCII digit run immediately after it, and parse it. -/
def find_prefixed_number (data pre : List Nat) : Option Nat :=
  match memmem data pre with
  | none => none
  | some p =>
    atoi ((data.drop (p + pre.length)).takeWhile fun c => decide (48 ≤ c ∧ c ≤ 57))

/-- The bytes of the blank-line separator CRLF CRLF. -/
def crlfcrlf : List Nat := [13, 10, 13, 10]

/-- fetch::body (src/fetch.rs lines 124-128): index just past the
first CRLF CRLF. -/
def body (response : List Nat) : Option Nat :=
  (memmem response crlfcrlf).map (· + crlfcrlf.length)

/-- Failure kinds of process_headers (src/fetch.rs lines 131-137). -/
inductive ErrorProcess where
  | MaxAge
  | Body
deriving DecidableEq

/-- The marker bytes of the literal b"max-age=". -/
def maxAgeMarker : List Nat := [109, 97, 120, 45, 97, 103, 101, 61]

/-- The marker bytes of the literal b"Age: ". -/
def ageMarker : List Nat := [65, 103, 101, 58, 32]

/-- process_headers (src/fetch.rs lines 104-121): skip to the first
newline, require a max-age number (hard failure when absent), default
the Age number to 0, and require the blank-line separator. Note the
returned body index adds crlfcrlf.len() and the skip to the result of
fetch::body, which already added crlfcrlf.len() itself. -/
def process_headers (response : List Nat) : Except ErrorProcess (Age × Nat) :=
  let skipped := (response.findIdx? fun b => b == 10).getD 0
  let resp := response.drop skipped
  match find_prefixed_number resp maxAgeMarker with
  | none => .error .MaxAge
  | some maxAge =>
    let age := (find_prefixed_number resp ageMarker).getD 0
    match body resp with
    | none => .error .Body
    | some b => .ok (⟨age, maxAge⟩, b + crlfcrlf.length + skipped)

set_option maxHeartbeats 4000000 in
set_option maxRecDepth 8000 in
/-- The literal SAMPLE response bytes from the test module of
src/fetch.rs (lines 139-151), the escapes of the Rust byte-string
literal decoded. -/
def SAMPLE : List Nat := [72, 84, 84, 80, 47, 49, 46, 48, 32, 50, 48, 48, 32, 79, 75, 13, 10, 83, 101, 114, 118, 101, 114, 58, 32, 115, 99, 97, 102, 102, 111, 108, 100, 105, 110, 103, 32, 111, 110, 32, 72, 84, 84, 80, 83, 101, 114, 118, 101, 114, 50, 13, 10, 88, 45, 88, 83, 83, 45, 80, 114, 111, 116, 101, 99, 116, 105, 111, 110, 58, 32, 48, 13, 10, 88, 45, 70, 114, 97, 109, 101, 45, 79, 112, 116, 105, 111, 110, 115, 58, 32, 83, 65, 77, 69, 79, 82, 73, 71, 73, 78, 13, 10, 88, 45, 67, 111, 110, 116, 101, 110, 116, 45, 84, 121, 112, 101, 45, 79, 112, 116, 105, 111, 110, 115, 58, 32, 110, 111, 115, 110, 105, 102, 102, 13, 10, 68, 97, 116, 101, 58, 32, 70, 114, 105, 44, 32, 50, 54, 32, 74, 97, 110, 32, 50, 48, 50, 52, 32, 49, 57, 58, 52, 57, 58, 52, 57, 32, 71, 77, 84, 13, 10, 69, 120, 112, 105, 114, 101, 115, 58, 32, 83, 97, 116, 44, 32, 50, 55, 32, 74, 97, 110, 32, 50, 48, 50, 52, 32, 48, 50, 58, 48, 48, 58, 53, 57, 32, 71, 77, 84, 13, 10, 67, 97, 99, 104, 101, 45, 67, 111, 110, 116, 114, 111, 108, 58, 32, 112, 117, 98, 108, 105, 99, 44, 32, 109, 97, 120, 45, 97, 103, 101, 61, 50, 50, 50, 55, 48, 44, 32, 109, 117, 115, 116, 45, 114, 101, 118, 97, 108, 105, 100, 97, 116, 101, 44, 32, 110, 111, 45, 116, 114, 97, 110, 115, 102, 111, 114, 109, 13, 10, 67, 111, 110, 116, 101, 110, 116, 45, 84, 121, 112, 101, 58, 32, 97, 112, 112, 108, 105, 99, 97, 116, 105, 111, 110, 47, 106, 115, 111, 110, 59, 32, 99, 104, 97, 114, 115, 101, 116, 61, 85, 84, 70, 45, 56, 13, 10, 65, 103, 101, 58, 32, 57, 13, 10, 65, 108, 116, 45, 83, 118, 99, 58, 32, 104, 51, 61, 34, 58, 52, 52, 51, 34, 59, 32, 109, 97, 61, 50, 53, 57, 50, 48, 48, 48, 44, 104, 51, 45, 50, 57, 61, 34, 58, 52, 52, 51, 34, 59, 32, 109, 97, 61, 50, 53, 57, 50, 48, 48, 48, 13, 10, 65, 99, 99, 101, 112, 116, 45, 82, 97, 110, 103, 101, 115, 58, 32, 110, 111, 110, 101, 13, 10, 86, 97, 114, 121, 58, 32, 79, 114, 105, 103, 105, 110, 44, 88, 45, 79, 114, 105, 103, 105, 110, 44, 82, 101, 102, 101, 114, 101, 114, 44, 65, 99, 99, 101, 112, 116, 45, 69, 110, 99, 111, 100, 105, 110, 103, 13, 10, 13, 10, 123, 10, 32, 32, 34, 52, 56, 97, 54, 51, 98, 99, 52, 55, 54, 55, 102, 56, 53, 53, 48, 97, 53, 51, 50, 100, 99, 54, 51, 48, 99, 102, 55, 101, 98, 52, 57, 102, 102, 51, 57, 55, 101, 55, 99, 34, 58, 32, 34, 45, 45, 45, 45, 45, 66, 69, 71, 73, 78, 32, 67, 69, 82, 84, 73, 70, 73, 67, 65, 84, 69, 45, 45, 45, 45, 45, 92, 110, 77, 73, 73, 68, 74, 106, 67, 67, 65, 103, 54, 103, 65, 119, 73, 66, 65, 103, 73, 73, 84, 112, 65, 82, 111, 110, 56, 103, 66, 121, 99, 119, 68, 81, 89, 74, 75, 111, 90, 73, 104, 118, 99, 78, 65, 81, 69, 70, 66, 81, 65, 119, 78, 106, 69, 48, 77, 68, 73, 71, 65, 49, 85, 69, 92, 110, 65, 119, 119, 114, 90, 109, 86, 107, 90, 88, 74, 104, 100, 71, 86, 107, 76, 88, 78, 112, 90, 50, 53, 118, 98, 105, 53, 122, 101, 88, 78, 48, 90, 87, 48, 117, 90, 51, 78, 108, 99, 110, 90, 112, 89, 50, 86, 104, 89, 50, 78, 118, 100, 87, 53, 48, 76, 109, 78, 118, 98, 84, 65, 101, 92, 110, 70, 119, 48, 121, 78, 68, 65, 120, 77, 84, 85, 119, 78, 68, 77, 52, 77, 84, 78, 97, 70, 119, 48, 121, 78, 68, 65, 120, 77, 122, 69, 120, 78, 106, 85, 122, 77, 84, 78, 97, 77, 68, 89, 120, 78, 68, 65, 121, 66, 103, 78, 86, 66, 65, 77, 77, 75, 50, 90, 108, 90, 71, 86, 121, 92, 110, 89, 88, 82, 108, 90, 67, 49, 122, 97, 87, 100, 117, 98, 50, 52, 117, 99, 51, 108, 122, 100, 71, 86, 116, 76, 109, 100, 122, 90, 88, 74, 50, 97, 87, 78, 108, 89, 87, 78, 106, 98, 51, 86, 117, 100, 67, 53, 106, 98, 50, 48, 119, 103, 103, 69, 105, 77, 65, 48, 71, 67, 83, 113, 71, 92, 110, 83, 73, 98, 51, 68, 81, 69, 66, 65, 81, 85, 65, 65, 52, 73, 66, 68, 119, 65, 119, 103, 103, 69, 75, 65, 111, 73, 66, 65, 81, 67, 114, 67, 118, 79, 88, 84, 112, 47, 65, 72, 111, 52, 105, 98, 114, 89, 106, 69, 48, 98, 115, 49, 99, 48, 103, 79, 97, 66, 48, 71, 117, 57, 47, 92, 110, 84, 50, 104, 118, 89, 97, 121, 110, 112, 109, 89, 66, 101, 66, 84, 105, 50, 115, 99, 57, 82, 105, 116, 48, 70, 111, 67, 86, 84, 108, 111, 101, 108, 121, 70, 99, 74, 47, 43, 90, 85, 118, 53, 84, 108, 51, 78, 71, 112, 53, 85, 86, 67, 120, 87, 113, 121, 80, 103, 56, 81, 103, 84, 111, 92, 110, 84, 107, 52, 47, 68, 119, 84, 67, 54, 89, 47, 90, 47, 77, 116, 66, 75, 122, 67, 109, 81, 113, 89, 107, 107, 111, 86, 120, 50, 100, 120, 57, 68, 118, 102, 82, 65, 71, 105, 100, 70, 81, 83, 69, 113, 81, 104, 117, 74, 104, 50, 74, 119, 109, 88, 110, 74, 79, 81, 53, 70, 51, 84, 56, 92, 110, 71, 90, 57, 48, 116, 88, 51, 121, 118, 54, 119, 84, 65, 81, 99, 51, 105, 88, 78, 77, 110, 88, 110, 55, 76, 68, 51, 83, 104, 118, 57, 72, 113, 56, 65, 102, 106, 65, 47, 73, 74, 73, 51, 100, 100, 55, 110, 47, 78, 88, 112, 72, 103, 81, 48, 118, 89, 50, 85, 113, 102, 89, 100, 80, 92, 110, 50, 86, 116, 88, 115, 101, 71, 49, 67, 105, 101, 66, 53, 114, 122, 66, 43, 101, 50, 70, 83, 70, 49, 107, 102, 102, 121, 81, 106, 104, 74, 76, 109, 99, 66, 111, 74, 85, 51, 69, 81, 68, 79, 87, 56, 109, 49, 81, 104, 48, 75, 108, 75, 67, 78, 83, 66, 120, 116, 113, 72, 52, 80, 66, 92, 110, 106, 102, 50, 88, 103, 80, 122, 84, 83, 81, 118, 71, 82, 119, 88, 89, 73, 90, 99, 57, 75, 97, 107, 88, 119, 89, 43, 122, 86, 112, 90, 75, 120, 105, 54, 108, 106, 121, 120, 78, 76, 76, 50, 111, 73, 85, 107, 85, 56, 88, 72, 120, 65, 103, 77, 66, 65, 65, 71, 106, 79, 68, 65, 50, 92, 110, 77, 65, 119, 71, 65, 49, 85, 100, 69, 119, 69, 66, 47, 119, 81, 67, 77, 65, 65, 119, 68, 103, 89, 68, 86, 82, 48, 80, 65, 81, 72, 47, 66, 65, 81, 68, 65, 103, 101, 65, 77, 66, 89, 71, 65, 49, 85, 100, 74, 81, 69, 66, 47, 119, 81, 77, 77, 65, 111, 71, 67, 67, 115, 71, 92, 110, 65, 81, 85, 70, 66, 119, 77, 67, 77, 65, 48, 71, 67, 83, 113, 71, 83, 73, 98, 51, 68, 81, 69, 66, 66, 81, 85, 65, 65, 52, 73, 66, 65, 81, 66, 78, 49, 98, 117, 76, 53, 97, 88, 97, 98, 101, 66, 71, 85, 117, 81, 99, 116, 79, 118, 53, 79, 112, 47, 121, 88, 114, 119, 120, 92, 110, 115, 99, 107, 71, 85, 48, 104, 80, 98, 49, 47, 57, 79, 66, 81, 122, 118, 74, 49, 73, 88, 81, 53, 88, 81, 66, 113, 121, 72, 76, 78, 73, 47, 97, 108, 116, 49, 113, 65, 70, 112, 48, 81, 47, 97, 89, 56, 71, 47, 76, 102, 48, 70, 87, 108, 85, 90, 118, 82, 113, 89, 109, 74, 49, 92, 110, 51, 52, 90, 120, 90, 74, 66, 74, 82, 76, 50, 99, 108, 53, 99, 86, 51, 117, 107, 101, 51, 109, 101, 86, 99, 109, 52, 47, 77, 89, 73, 101, 122, 74, 72, 65, 43, 86, 90, 50, 65, 112, 86, 89, 87, 69, 89, 70, 85, 52, 55, 53, 55, 83, 119, 107, 75, 121, 88, 99, 80, 55, 118, 69, 92, 110, 119, 73, 110, 74, 119, 84, 99, 119, 78, 97, 69, 79, 55, 98, 112, 67, 68, 54, 85, 80, 71, 89, 85, 113, 88, 55, 72, 74, 53, 54, 119, 111, 86, 68, 107, 47, 109, 113, 51, 89, 55, 99, 50, 83, 55, 105, 108, 111, 88, 79, 68, 98, 105, 118, 85, 43, 109, 72, 75, 78, 78, 111, 119, 108, 92, 110, 102, 112, 50, 99, 77, 110, 68, 67, 75, 65, 107, 78, 78, 70, 79, 74, 57, 113, 71, 119, 118, 53, 86, 81, 48, 90, 76, 80, 110, 57, 80, 49, 99, 43, 48, 112, 106, 65, 57, 121, 109, 56, 71, 113, 54, 65, 85, 85, 99, 68, 108, 102, 52, 48, 80, 114, 109, 77, 105, 47, 88, 55, 105, 76, 92, 110, 118, 69, 99, 105, 106, 74, 83, 55, 51, 89, 107, 80, 65, 77, 68, 43, 48, 88, 51, 68, 80, 115, 107, 115, 50, 89, 48, 72, 70, 90, 52, 47, 122, 119, 69, 76, 107, 98, 72, 81, 89, 103, 78, 101, 73, 119, 119, 69, 118, 84, 54, 65, 71, 118, 121, 54, 92, 110, 45, 45, 45, 45, 45, 69, 78, 68, 32, 67, 69, 82, 84, 73, 70, 73, 67, 65, 84, 69, 45, 45, 45, 45, 45, 92, 110, 34, 44, 10, 32, 32, 34, 56, 53, 101, 53, 53, 49, 48, 55, 52, 54, 54, 98, 55, 101, 50, 57, 56, 51, 54, 49, 57, 57, 99, 53, 56, 99, 55, 53, 56, 49, 102, 53, 98, 57, 50, 51, 98, 101, 52, 52, 34, 58, 32, 34, 45, 45, 45, 45, 45, 66, 69, 71, 73, 78, 32, 67, 69, 82, 84, 73, 70, 73, 67, 65, 84, 69, 45, 45, 45, 45, 45, 92, 110, 77, 73, 73, 68, 74, 122, 67, 67, 65, 103, 43, 103, 65, 119, 73, 66, 65, 103, 73, 74, 65, 73, 118, 81, 111, 112, 118, 101, 47, 52, 56, 88, 77, 65, 48, 71, 67, 83, 113, 71, 83, 73, 98, 51, 68, 81, 69, 66, 66, 81, 85, 65, 77, 68, 89, 120, 78, 68, 65, 121, 66, 103, 78, 86, 92, 110, 66, 65, 77, 77, 75, 50, 90, 108, 90, 71, 86, 121, 89, 88, 82, 108, 90, 67, 49, 122, 97, 87, 100, 117, 98, 50, 52, 117, 99, 51, 108, 122, 100, 71, 86, 116, 76, 109, 100, 122, 90, 88, 74, 50, 97, 87, 78, 108, 89, 87, 78, 106, 98, 51, 86, 117, 100, 67, 53, 106, 98, 50, 48, 119, 92, 110, 72, 104, 99, 78, 77, 106, 81, 119, 77, 84, 73, 122, 77, 68, 81, 122, 79, 68, 69, 48, 87, 104, 99, 78, 77, 106, 81, 119, 77, 106, 65, 52, 77, 84, 89, 49, 77, 122, 69, 48, 87, 106, 65, 50, 77, 84, 81, 119, 77, 103, 89, 68, 86, 81, 81, 68, 68, 67, 116, 109, 90, 87, 82, 108, 92, 110, 99, 109, 70, 48, 90, 87, 81, 116, 99, 50, 108, 110, 98, 109, 57, 117, 76, 110, 78, 53, 99, 51, 82, 108, 98, 83, 53, 110, 99, 50, 86, 121, 100, 109, 108, 106, 90, 87, 70, 106, 89, 50, 57, 49, 98, 110, 81, 117, 89, 50, 57, 116, 77, 73, 73, 66, 73, 106, 65, 78, 66, 103, 107, 113, 92, 110, 104, 107, 105, 71, 57, 119, 48, 66, 65, 81, 69, 70, 65, 65, 79, 67, 65, 81, 56, 65, 77, 73, 73, 66, 67, 103, 75, 67, 65, 81, 69, 65, 52, 116, 86, 68, 114, 113, 53, 82, 98, 101, 68, 116, 108, 74, 50, 88, 104, 50, 100, 105, 107, 69, 56, 52, 48, 76, 87, 102, 108, 114, 56, 57, 92, 110, 67, 109, 51, 99, 71, 73, 57, 109, 81, 71, 108, 115, 107, 84, 105, 103, 86, 48, 97, 110, 111, 86, 105, 79, 72, 57, 50, 90, 49, 115, 113, 87, 65, 112, 53, 101, 49, 97, 82, 107, 76, 108, 67, 109, 43, 75, 65, 87, 99, 54, 57, 117, 118, 79, 87, 47, 88, 55, 48, 106, 69, 104, 122, 68, 92, 110, 74, 86, 82, 69, 101, 66, 51, 104, 43, 82, 65, 110, 122, 120, 89, 114, 98, 85, 103, 68, 69, 103, 108, 116, 105, 85, 97, 77, 56, 90, 120, 116, 116, 56, 104, 105, 86, 104, 47, 71, 68, 65, 117, 100, 82, 109, 83, 80, 57, 107, 68, 120, 88, 76, 53, 120, 110, 74, 69, 84, 70, 49, 103, 110, 92, 110, 119, 65, 72, 97, 48, 106, 55, 99, 77, 52, 83, 84, 76, 75, 98, 116, 119, 75, 105, 55, 51, 67, 69, 109, 84, 106, 84, 76, 113, 71, 65, 69, 83, 56, 88, 86, 110, 88, 112, 56, 86, 87, 71, 98, 54, 73, 117, 81, 122, 100, 109, 66, 73, 74, 107, 102, 99, 70, 111, 103, 52, 73, 110, 113, 92, 110, 57, 51, 70, 52, 67, 106, 47, 83, 88, 115, 83, 106, 69, 67, 71, 51, 106, 53, 54, 86, 120, 103, 119, 110, 108, 111, 80, 67, 72, 84, 88, 86, 110, 47, 120, 83, 49, 115, 51, 79, 106, 111, 66, 67, 79, 118, 79, 86, 83, 74, 102, 103, 50, 110, 83, 84, 87, 78, 105, 57, 51, 74, 71, 82, 92, 110, 57, 112, 87, 90, 101, 118, 104, 55, 83, 113, 56, 67, 108, 119, 56, 72, 50, 108, 118, 73, 65, 80, 86, 47, 72, 89, 100, 120, 118, 115, 117, 99, 87, 103, 56, 115, 74, 117, 84, 97, 54, 90, 90, 83, 120, 84, 49, 87, 109, 66, 107, 87, 54, 81, 73, 68, 65, 81, 65, 66, 111, 122, 103, 119, 92, 110, 78, 106, 65, 77, 66, 103, 78, 86, 72, 82, 77, 66, 65, 102, 56, 69, 65, 106, 65, 65, 77, 65, 52, 71, 65, 49, 85, 100, 68, 119, 69, 66, 47, 119, 81, 69, 65, 119, 73, 72, 103, 68, 65, 87, 66, 103, 78, 86, 72, 83, 85, 66, 65, 102, 56, 69, 68, 68, 65, 75, 66, 103, 103, 114, 92, 110, 66, 103, 69, 70, 66, 81, 99, 68, 65, 106, 65, 78, 66, 103, 107, 113, 104, 107, 105, 71, 57, 119, 48, 66, 65, 81, 85, 70, 65, 65, 79, 67, 65, 81, 69, 65, 112, 73, 110, 100, 48, 75, 100, 110, 107, 67, 48, 51, 87, 88, 67, 65, 99, 104, 79, 117, 73, 107, 57, 104, 67, 118, 111, 79, 92, 110, 87, 75, 84, 108, 118, 48, 119, 97, 112, 85, 120, 52, 73, 56, 70, 56, 113, 81, 66, 68, 107, 98, 68, 112, 82, 88, 104, 70, 52, 109, 120, 77, 119, 119, 101, 109, 99, 73, 65, 116, 82, 87, 77, 102, 49, 50, 119, 115, 111, 57, 99, 117, 107, 106, 110, 77, 119, 49, 120, 101, 111, 50, 101, 99, 92, 110, 73, 97, 74, 70, 113, 72, 81, 71, 72, 115, 83, 88, 105, 85, 57, 88, 99, 73, 85, 104, 99, 83, 47, 88, 57, 116, 113, 88, 67, 86, 103, 89, 54, 70, 90, 85, 119, 57, 82, 47, 55, 107, 51, 102, 87, 119, 43, 115, 101, 43, 82, 51, 115, 75, 75, 79, 75, 80, 85, 65, 116, 57, 115, 122, 92, 110, 50, 65, 81, 57, 70, 54, 55, 101, 109, 120, 105, 121, 86, 67, 103, 67, 68, 48, 110, 122, 120, 48, 115, 106, 48, 118, 121, 47, 89, 114, 51, 71, 83, 57, 75, 52, 89, 57, 85, 71, 77, 105, 50, 86, 117, 114, 56, 69, 50, 118, 47, 90, 68, 107, 111, 54, 86, 113, 99, 66, 70, 119, 73, 122, 92, 110, 101, 49, 86, 104, 119, 114, 53, 71, 56, 84, 54, 79, 115, 87, 102, 49, 120, 101, 69, 86, 43, 70, 112, 115, 85, 121, 50, 101, 49, 52, 74, 104, 109, 115, 114, 78, 87, 89, 89, 77, 81, 103, 121, 120, 103, 66, 120, 72, 50, 76, 109, 78, 113, 121, 118, 117, 100, 88, 55, 73, 86, 84, 115, 82, 92, 110, 49, 67, 101, 112, 53, 88, 97, 55, 66, 74, 98, 65, 68, 89, 83, 69, 70, 105, 65, 114, 119, 110, 108, 81, 57, 112, 48, 81, 77, 78, 114, 122, 104, 80, 103, 55, 87, 56, 73, 111, 77, 77, 112, 68, 97, 83, 112, 81, 101, 81, 49, 110, 89, 88, 50, 101, 99, 81, 61, 61, 92, 110, 45, 45, 45, 45, 45, 69, 78, 68, 32, 67, 69, 82, 84, 73, 70, 73, 67, 65, 84, 69, 45, 45, 45, 45, 45, 92, 110, 34, 10, 125, 10]

/-! Cache, src/cache.rs. -/

/-- cache::Keys (src/cache.rs lines 8-11): a key table plus a
MaybeUninit expiration instant, the latter modelled as an Option that
is none while the cell is uninitialized. -/
structure Cache.Keys (K : Type) where
  keys : GooglePem.Keys K
  expiration : Option Nat
deriving DecidableEq

/-- cache::Keys::new (src/cache.rs lines 19-24). -/
def Cache.Keys.new : Cache.Keys K := ⟨⟨[]⟩, none⟩

/-- cache::Keys::is_valid (src/cache.rs lines 27-29): non-empty AND
expiration.is_expired(), where is_expired t means t is before now
(src/fetch.rs lines 62-65 with is_before at line 70). The conjunction
short-circuits, so an empty table never touches the expiration cell; a
non-empty table with an uninitialized cell dereferences uninitialized
memory via assume_init_ref, modelled as none (undefined behavior). -/
def Cache.Keys.isValidRead (c : Cache.Keys K) (now : Nat) : Option Bool :=
  if c.keys.isEmpty then some false
  else c.expiration.map fun t => decide (t < now)

/-- Outcome of one cache validate call, restricted to its
cache-management part (the token decode and signature check, delegated
to jsonwebtoken in src/keys.rs lines 105-115, take the table by shared
reference and never mutate the cache). fetches counts invocations of
the external fetch; ub marks an is_valid read of the uninitialized
expiration cell, panic an arithmetic underflow inside expiration_now. -/
inductive StepOutcome (K : Type) where
  | ok (c : Cache.Keys K) (fetches : Nat)
  | err (c : Cache.Keys K) (fetches : Nat)
  | ub
  | panic
deriving DecidableEq

/-- cache::Keys::validate (src/cache.rs lines 32-39). env models what
the external fetch plus header processing feed into extend_fetch
(src/keys.rs lines 75-86): none for a transport or header-processing
failure (the error surfaces before any pair reaches the table), some
(pairs, age) for a parsed body and its freshness data. On the
not-valid branch the table is cleared, extend_try runs over the
parsed pairs (its capacity verdict is discarded), and only when it
succeeds is the expiration cell rewritten with age.expiration_now(). -/
def Cache.Keys.validate (hashId : List Nat → Nat) (parseKey : List Nat → Option K)
    (now : Nat) (env : Option (List (List Nat × List Nat) × Age))
    (c : Cache.Keys K) : StepOutcome K :=
  match c.isValidRead now with
  | none => .ub
  | some true => .ok c 0
  | some false =>
    let cleared : GooglePem.Keys K := GooglePem.Keys.clear c.keys
    match env with
    | none => .err ⟨cleared, c.expiration⟩ 1
    | some (ps, age) =>
      match GooglePem.Keys.extendTry hashId parseKey cleared ps with
      | (k2, .error _) => .err ⟨k2, c.expiration⟩ 1
      | (k2, .ok _) =>
        match Age.expiration age now with
        | none => .panic
        | some t => .ok ⟨k2, some t⟩ 1

/-! Concrete stand-ins for the external collaborators, used to close
scenario theorems. -/

/-- A concrete stand-in for the external DefaultHasher in closed
scenarios: the head byte of the identifier. -/
def hashFn0 (l : List Nat) : Nat := l.headD 0

/-- A concrete stand-in for the external PEM key parser in closed
scenarios: fails exactly on key bytes whose head byte is 0, otherwise
returns the head byte as the parsed key material. -/
def parseKey0 (l : List Nat) : Option Nat :=
  if l.headD 0 = 0 then none else some (l.headD 0)

/-- A concrete stand-in for the external PEM key parser that accepts
every key, returning the raw bytes as the key material. -/
def parseKeyId (l : List Nat) : Option (List Nat) := some l

/-- A concrete stand-in hasher on which all identifiers collide. -/
def hashConst (_ : List Nat) : Nat := 0

/-- Buffer bytes of the Rust literal b'"a""b"': exactly one
well-formed quoted pair, four quote bytes, six bytes long. -/
def buf1 : List Nat := [34, 97, 34, 34, 98, 34]

/-- Bytes of b'"c""d"', placed in memory directly after buf1 to stand
for whatever adjacent allocation follows the buffer. -/
def junk1 : List Nat := [34, 99, 34, 34, 100, 34]

/-! Claim theorems. -/

/-- C1: the claim fails on the code. cache::Keys::is_valid
(src/cache.rs line 28) returns table-non-empty AND deadline-expired,
the opposite of the intended freshness test, so a cache that is Fresh
in the spec's sense (non-empty table, current time 50 strictly before
the recorded deadline 100) is judged invalid and validate performs one
fetch-and-repopulate (even wiping the good table), while a cache whose
deadline 10 already passed at time 50 is judged valid and validate
performs zero fetches, serving the expired keys. -/
theorem c1_cache_freshness_inverted :
    (Cache.Keys.isValidRead (K := Nat) ⟨⟨[(7, 7)]⟩, some 100⟩ 50 = some false
      ∧ Cache.Keys.validate hashFn0 parseKey0 50 (some ([], ⟨0, 0⟩)) ⟨⟨[(7, 7)]⟩, some 100⟩
          = .ok ⟨⟨[]⟩, some 50⟩ 1)
    ∧ (Cache.Keys.isValidRead (K := Nat) ⟨⟨[(7, 7)]⟩, some 10⟩ 50 = some true
      ∧ Cache.Keys.validate hashFn0 parseKey0 50 (some ([], ⟨0, 0⟩)) ⟨⟨[(7, 7)]⟩, some 10⟩
          = .ok ⟨⟨[(7, 7)]⟩, some 10⟩ 0) := by decide

/-- C2 fails as stated: a refresh on an empty cache whose parsed body
holds a good pair ([1], [1]) followed by a pair ([2], [0]) whose key
fails to parse aborts with an error, yet leaves the good entry in the
table - the table is not cleared/empty after the failed refresh and a
partial set of keys is exposed. -/
theorem c2_partial_keys_kept_counterexample :
    Cache.Keys.validate hashFn0 parseKey0 50
        (some ([([1], [1]), ([2], [0])], ⟨0, 0⟩)) ⟨⟨[]⟩, some 5⟩
      = .err ⟨⟨[(1, 1)]⟩, some 5⟩ 1
    ∧ Keys.isEmpty (K := Nat) ⟨[(1, 1)]⟩ = false := by decide

/-- C2 (amended): a refresh from a stale-empty cache that fails in
transport or header processing leaves the table cleared/empty, but a
key parse failure mid-extend aborts the refresh with an error while
keeping the entries already pushed before the failing key - a partial
set of keys remains in the table. In both cases the expiration cell is
left untouched. -/
theorem c2_failed_refresh_amended {K : Type}
    (hashId : List Nat → Nat) (parseKey : List Nat → Option K)
    (now : Nat) (age : Age) (c : Cache.Keys K) (hempty : c.keys.isEmpty = true)
    (id1 key1 id2 key2 : List Nat) (k1 : K) (rest : List (List Nat × List Nat))
    (h1 : parseKey key1 = some k1) (h2 : parseKey key2 = none) :
    Cache.Keys.validate hashId parseKey now none c = .err ⟨⟨[]⟩, c.expiration⟩ 1
    ∧ Cache.Keys.validate hashId parseKey now
        (some ((id1, key1) :: (id2, key2) :: rest, age)) c
      = .err ⟨⟨[(hashId id1, k1)]⟩, c.expiration⟩ 1 := by
  constructor
  · simp [Cache.Keys.validate, Cache.Keys.isValidRead, hempty, Keys.clear]
  · simp [Cache.Keys.validate, Cache.Keys.isValidRead, hempty, Keys.clear,
      Keys.extendTry, Keys.push, Keys.len, KEYS_CAPACITY, h1, h2]

/-- C2 amended witness: the amended statement at concrete inputs. -/
theorem c2_failed_refresh_amended_witness :
    Cache.Keys.validate hashFn0 parseKey0 50 none (⟨⟨[]⟩, some 5⟩ : Cache.Keys Nat)
      = .err ⟨⟨[]⟩, some 5⟩ 1
    ∧ Cache.Keys.validate hashFn0 parseKey0 50
        (some ([([1], [1]), ([3], [0])], ⟨0, 0⟩)) ⟨⟨[]⟩, some 5⟩
      = .err ⟨⟨[(hashFn0 [1], 1)]⟩, some 5⟩ 1 :=
  c2_failed_refresh_amended hashFn0 parseKey0 50 ⟨0, 0⟩ ⟨⟨[]⟩, some 5⟩ (by decide)
    [1] [1] [3] [0] 1 [] (by decide) (by decide)

/-- C3: the claim fails on the code. Parse::next advances the pointer
past the fourth quote after a yield but never shrinks the stored
length (src/parse.rs lines 40 and 45 only zero it at exhaustion), so
on the six-byte buffer b'"a""b"' the first call stays inside the
buffer (offsets 0..5) and yields the pair, but the second call scans
offsets 6..11, every one of them outside the buffer's bounds. -/
theorem c3_out_of_bounds_reads :
    (Parse.next buf1 ⟨0, 6⟩).res = some ([97], [98])
    ∧ (Parse.next buf1 ⟨0, 6⟩).reads = [0, 1, 2, 3, 4, 5]
    ∧ (Parse.next buf1 ⟨0, 6⟩).mem = buf1
    ∧ (Parse.next buf1 ⟨0, 6⟩).st = ⟨6, 6⟩
    ∧ (Parse.next buf1 ⟨6, 6⟩).reads = [6, 7, 8, 9, 10, 11]
    ∧ buf1.length = 6 := by decide

/-- C4: the claim fails on the code. buf1 contains exactly one
well-formed quoted pair (k = 1, four quote bytes), yet because the
iterator keeps scanning its full length past the advanced pointer
(the C3 defect), iterating to exhaustion reads the adjacent memory
junk1 beyond the buffer and yields a second pair fabricated from it:
two pairs from a one-pair buffer. -/
theorem c4_extra_pair_from_out_of_bounds :
    buf1.count 34 = 4
    ∧ (runParse 3 (buf1 ++ junk1) ⟨0, 6⟩).1 = [([97], [98]), ([99], [100])] := by decide
set_option maxRecDepth 8000 in
set_option maxHeartbeats 4000000 in
/-- C5: the claim fails on the code. On the literal SAMPLE response
the Age extraction is right (age 9, max-age 22270), but
process_headers adds crlfcrlf.len() and the skip to the result of
fetch::body, which already includes crlfcrlf.len(): the first CRLF
CRLF sits at index 460, the first body byte is the opening brace at
index 464, yet the returned offset is 468 - four bytes past the body
start, pointing at the quote inside the body. Indexing the response
at the returned offset therefore does not yield the first body byte,
and the assertion of the source's own test_process_headers fails. -/
theorem c5_body_offset_past_body_start :
    process_headers SAMPLE = .ok (⟨9, 22270⟩, 468)
    ∧ memmem SAMPLE crlfcrlf = some 460
    ∧ SAMPLE.getD 464 0 = 123
    ∧ SAMPLE.getD 468 0 = 34 :=
  ⟨rfl, rfl, rfl, rfl⟩

/-- C6 fails as stated: at age 9, max-age 5 and current time 100 the
source's expiration computation underflows (modelled as none; the u64
subtraction panics in debug builds and wraps in release builds) - it
does not clamp the remaining seconds to 0, so the result is not the
current instant 100. -/
theorem c6_no_clamp_counterexample :
    Age.expiration ⟨9, 5⟩ 100 = none
    ∧ Age.expiration ⟨9, 5⟩ 100 ≠ some 100 := by decide

/-- C6 (amended): when max_age is at least age, the expiration instant
equals now plus (max_age - age) seconds; when max_age is smaller than
age the u64 subtraction underflows (none in the checked model: a panic
in debug builds, a wrap modulo 2^64 in release builds) - the remaining
seconds are not clamped to 0. -/
theorem c6_expiration_amended (a : Age) (now : Nat) :
    (a.age ≤ a.max_age → a.expiration now = some (now + (a.max_age - a.age)))
    ∧ (a.max_age < a.age → a.expiration now = none) := by
  refine ⟨fun h => ?_, fun h => ?_⟩
  · simp [Age.expiration, u64sub, h]
  · simp [Age.expiration, u64sub, Nat.not_le.mpr h]

/-- C6 amended witness: the amended statement at concrete inputs. -/
theorem c6_expiration_amended_witness :
    Age.expiration ⟨3, 10⟩ 100 = some 107 ∧ Age.expiration ⟨5, 2⟩ 100 = none :=
  ⟨by simpa using (c6_expiration_amended ⟨3, 10⟩ 100).1 (by decide),
   (c6_expiration_amended ⟨5, 2⟩ 100).2 (by decide)⟩

/-- C7: the claim fails on the code. Starting from a freshly
constructed cache, a refresh whose parsed body is a good pair
([1], [1]) followed by a pair ([2], [0]) whose key fails to parse
leaves the table non-empty while the expiration cell was never
initialized (the assignment after extend_fetch is skipped by the error
propagation in src/cache.rs line 35), violating the invariant; the
next is_valid call then dereferences the uninitialized cell (undefined
behavior, the ub outcome). The second half of the invariant does hold:
an empty table is always judged invalid, whatever the cell holds. -/
theorem c7_uninit_deadline_read :
    Cache.Keys.validate hashFn0 parseKey0 50
        (some ([([1], [1]), ([2], [0])], ⟨0, 0⟩)) (Cache.Keys.new (K := Nat))
      = .err ⟨⟨[(1, 1)]⟩, none⟩ 1
    ∧ Keys.isEmpty (K := Nat) ⟨[(1, 1)]⟩ = false
    ∧ Cache.Keys.isValidRead (K := Nat) ⟨⟨[(1, 1)]⟩, none⟩ 50 = none
    ∧ Cache.Keys.validate hashFn0 parseKey0 50 none ⟨⟨[(1, 1)]⟩, none⟩ = .ub
    ∧ ∀ (e : Option Nat) (now : Nat),
        Cache.Keys.isValidRead (K := Nat) ⟨⟨[]⟩, e⟩ now = some false := by
  refine ⟨by decide, by decide, by decide, by decide, fun e now => ?_⟩
  simp [Cache.Keys.isValidRead, Keys.isEmpty, Keys.len]
/-- C8: with any hasher and key parser, a capacity-4 table given five
pairs whose keys parse and whose identifier hashes are pairwise
distinct (the model of five distinct identifiers under the effectively
injective DefaultHasher) inserts exactly the first four, reports
all-inserted false, serves get on each of the first four identifiers
and fails it on the fifth; and a push onto any full table is rejected
with the table unchanged. -/
theorem c8_capacity_scenario {K : Type}
    (hashId : List Nat → Nat) (parseKey : List Nat → Option K)
    (i1 i2 i3 i4 i5 w1 w2 w3 w4 w5 : List Nat) (k1 k2 k3 k4 : K)
    (p1 : parseKey w1 = some k1) (p2 : parseKey w2 = some k2)
    (p3 : parseKey w3 = some k3) (p4 : parseKey w4 = some k4)
    (hnd : List.Nodup [hashId i1, hashId i2, hashId i3, hashId i4, hashId i5]) :
    Keys.extendTry hashId parseKey ⟨[]⟩
        [(i1, w1), (i2, w2), (i3, w3), (i4, w4), (i5, w5)]
      = (⟨[(hashId i1, k1), (hashId i2, k2), (hashId i3, k3), (hashId i4, k4)]⟩, .ok false)
    ∧ Keys.get hashId ⟨[(hashId i1, k1), (hashId i2, k2), (hashId i3, k3), (hashId i4, k4)]⟩ i1
        = some k1
    ∧ Keys.get hashId ⟨[(hashId i1, k1), (hashId i2, k2), (hashId i3, k3), (hashId i4, k4)]⟩ i2
        = some k2
    ∧ Keys.get hashId ⟨[(hashId i1, k1), (hashId i2, k2), (hashId i3, k3), (hashId i4, k4)]⟩ i3
        = some k3
    ∧ Keys.get hashId ⟨[(hashId i1, k1), (hashId i2, k2), (hashId i3, k3), (hashId i4, k4)]⟩ i4
        = some k4
    ∧ Keys.get hashId ⟨[(hashId i1, k1), (hashId i2, k2), (hashId i3, k3), (hashId i4, k4)]⟩ i5
        = none
    ∧ ∀ (k : Keys K) (id key : List Nat), Keys.len k = KEYS_CAPACITY →
        Keys.push hashId parseKey k id key = (k, .ok false) := by
  simp only [List.nodup_cons, List.mem_cons, List.not_mem_nil, or_false, not_or,
    List.nodup_nil, and_true] at hnd
  obtain ⟨⟨d12, d13, d14, d15⟩, ⟨d23, d24, d25⟩, ⟨d34, d35⟩, d45, -⟩ := hnd
  have b12 : (hashId i1 == hashId i2) = false := beq_eq_false_iff_ne.mpr d12
  have b13 : (hashId i1 == hashId i3) = false := beq_eq_false_iff_ne.mpr d13
  have b14 : (hashId i1 == hashId i4) = false := beq_eq_false_iff_ne.mpr d14
  have b15 : (hashId i1 == hashId i5) = false := beq_eq_false_iff_ne.mpr d15
  have b23 : (hashId i2 == hashId i3) = false := beq_eq_false_iff_ne.mpr d23
  have b24 : (hashId i2 == hashId i4) = false := beq_eq_false_iff_ne.mpr d24
  have b25 : (hashId i2 == hashId i5) = false := beq_eq_false_iff_ne.mpr d25
  have b34 : (hashId i3 == hashId i4) = false := beq_eq_false_iff_ne.mpr d34
  have b35 : (hashId i3 == hashId i5) = false := beq_eq_false_iff_ne.mpr d35
  have b45 : (hashId i4 == hashId i5) = false := beq_eq_false_iff_ne.mpr d45
  refine ⟨?_, ?_, ?_, ?_, ?_, ?_, ?_⟩
  · simp [Keys.extendTry, Keys.push, Keys.len, KEYS_CAPACITY, p1, p2, p3, p4]
  · simp [Keys.get, List.find?]
  · simp [Keys.get, List.find?, b12]
  · simp [Keys.get, List.find?, b13, b23]
  · simp [Keys.get, List.find?, b14, b24, b34]
  · simp [Keys.get, List.find?, b15, b25, b35, b45]
  · intro k id key hlen
    simp [Keys.push, hlen]

/-- C8 witness: the scenario at head-byte hashing, the accept-all key
parser, identifiers [1]..[5] and key bytes equal to the identifiers,
including a rejected push onto the resulting full table. -/
theorem c8_capacity_scenario_witness :
    Keys.extendTry hashFn0 parseKeyId ⟨[]⟩
        [([1], [1]), ([2], [2]), ([3], [3]), ([4], [4]), ([5], [5])]
      = (⟨[(hashFn0 [1], [1]), (hashFn0 [2], [2]), (hashFn0 [3], [3]), (hashFn0 [4], [4])]⟩,
          .ok false)
    ∧ Keys.get hashFn0
        ⟨[(hashFn0 [1], [1]), (hashFn0 [2], [2]), (hashFn0 [3], [3]), (hashFn0 [4], [4])]⟩ [1]
        = some [1]
    ∧ Keys.get hashFn0
        ⟨[(hashFn0 [1], [1]), (hashFn0 [2], [2]), (hashFn0 [3], [3]), (hashFn0 [4], [4])]⟩ [2]
        = some [2]
    ∧ Keys.get hashFn0
        ⟨[(hashFn0 [1], [1]), (hashFn0 [2], [2]), (hashFn0 [3], [3]), (hashFn0 [4], [4])]⟩ [3]
        = some [3]
    ∧ Keys.get hashFn0
        ⟨[(hashFn0 [1], [1]), (hashFn0 [2], [2]), (hashFn0 [3], [3]), (hashFn0 [4], [4])]⟩ [4]
        = some [4]
    ∧ Keys.get hashFn0
        ⟨[(hashFn0 [1], [1]), (hashFn0 [2], [2]), (hashFn0 [3], [3]), (hashFn0 [4], [4])]⟩ [5]
        = none
    ∧ Keys.push hashFn0 parseKeyId
        ⟨[(hashFn0 [1], [1]), (hashFn0 [2], [2]), (hashFn0 [3], [3]), (hashFn0 [4], [4])]⟩
        [9] [9]
      = (⟨[(hashFn0 [1], [1]), (hashFn0 [2], [2]), (hashFn0 [3], [3]), (hashFn0 [4], [4])]⟩,
          .ok false) := by
  have h := c8_capacity_scenario hashFn0 parseKeyId [1] [2] [3] [4] [5]
    [1] [2] [3] [4] [5] [1] [2] [3] [4] rfl rfl rfl rfl (by decide)
  exact ⟨h.1, h.2.1, h.2.2.1, h.2.2.2.1, h.2.2.2.2.1, h.2.2.2.2.2.1,
    h.2.2.2.2.2.2 _ [9] [9] (by decide)⟩

/-- C9: with any hasher, a lookup compares only stored hashes, so for
distinct identifiers a and b with colliding hashes, get a on a table
populated by pushing b's key (and then another colliding key c,
showing the first match wins) returns the key pushed under b. -/
theorem c9_hash_collision_lookup {K : Type}
    (hashId : List Nat → Nat) (parseKey : List Nat → Option K)
    (a b c wb wc : List Nat) (kb kc : K)
    (hab : a ≠ b) (hba : hashId b = hashId a) (hca : hashId c = hashId a)
    (pb : parseKey wb = some kb) (pc : parseKey wc = some kc) :
    Keys.extendTry hashId parseKey ⟨[]⟩ [(b, wb), (c, wc)]
      = (⟨[(hashId b, kb), (hashId c, kc)]⟩, .ok true)
    ∧ Keys.get hashId ⟨[(hashId b, kb), (hashId c, kc)]⟩ a = some kb := by
  refine ⟨?_, ?_⟩
  · simp [Keys.extendTry, Keys.push, Keys.len, KEYS_CAPACITY, pb, pc]
  · simp [Keys.get, List.find?, hba]

/-- C9 witness: under the everything-collides hasher, looking up the
never-inserted identifier [1] returns the key pushed under [2]. -/
theorem c9_hash_collision_lookup_witness :
    Keys.extendTry hashConst parseKeyId ⟨[]⟩ [([2], [9]), ([3], [8])]
      = (⟨[(hashConst [2], [9]), (hashConst [3], [8])]⟩, .ok true)
    ∧ Keys.get hashConst ⟨[(hashConst [2], [9]), (hashConst [3], [8])]⟩ [1] = some [9] :=
  c9_hash_collision_lookup hashConst parseKeyId [1] [2] [3] [9] [8] [9] [8]
    (by decide) rfl rfl rfl rfl

/-- Total bytes the fetch loop reads: the minimum of the buffer
capacity and the response length. -/
theorem intoLoop_total (N : Nat) (stream : List Nat) :
    intoLoop N (stream.length + 1) stream 0 = min N stream.length := by
  cases hs : stream.length with
  | zero =>
    have he : stream = [] := List.length_eq_zero.mp hs
    subst he
    simp [intoLoop]
  | succ L =>
    simp only [intoLoop, Nat.sub_zero, Nat.zero_add, List.length_drop, hs]
    split_ifs with h1 h2
    · omega
    · omega
    · exfalso
      omega

/-- C10: the internal buffer of extend_fetch is 5 << 10 = 5120 bytes,
the fetch loop reads min(buffer length, response length) bytes and
returns Ok either way, so every response longer than 5120 bytes is
silently cut off at the buffer size: the tail never reaches the
parser and no error is raised. -/
theorem c10_fetch_truncation (response : List Nat) :
    extendFetchBufLen = 5120
    ∧ fetchInto response extendFetchBufLen = .ok (min extendFetchBufLen response.length)
    ∧ (extendFetchBufLen < response.length →
        fetchInto response extendFetchBufLen = .ok extendFetchBufLen) := by
  refine ⟨by decide, ?_, fun h => ?_⟩
  · unfold fetchInto
    rw [intoLoop_total]
  · unfold fetchInto
    rw [intoLoop_total, Nat.min_eq_left h.le]

/-- C10 witness: a 6000-byte response against the 5120-byte buffer is
reported as a successful read of exactly 5120 bytes. -/
theorem c10_fetch_truncation_witness :
    fetchInto (List.replicate 6000 7) extendFetchBufLen = .ok extendFetchBufLen
    ∧ extendFetchBufLen = 5120 :=
  ⟨(c10_fetch_truncation (List.replicate 6000 7)).2.2
      (by rw [List.length_replicate]; decide),
   (c10_fetch_truncation []).1⟩

end GooglePem
